import Mathlib

/-!
Shallow embedding of the clause-analysis pipeline of the legal-app repository
(backend/analyzer.py, backend/logic/grantie.py, backend/logic/tts.py,
main.py, frontend/app.py), with theorems settling the spec claims.

The external OpenAI completion service is modelled as an oracle
`llm : String → LlmOutcome` mapping the rendered prompt to either a
successful content string or one of the failure classes the code catches.
DOCX extraction (`extract_clauses_from_docx`) is modelled by its outcome:
`Except String (List String)` — either the message of the raised exception
or the ordered list of extracted clause strings.
-/

namespace LegalApp

/-- Python's substring membership test `needle in haystack` on char lists. -/
def subList (needle : List Char) : List Char → Bool
  | [] => needle.isEmpty
  | c :: rest => needle.isPrefixOf (c :: rest) || subList needle rest

/-- Python's `needle in haystack` on strings. -/
def substrIn (needle haystack : String) : Bool :=
  subList needle.toList haystack.toList

/-- Python's `str.lower()` (ASCII case folding, which covers every keyword the
code compares against). -/
def pyLower (s : String) : String :=
  String.mk (s.toList.map Char.toLower)

/-- Python's `str.strip()` on a char list: drop leading and trailing whitespace. -/
def stripList (l : List Char) : List Char :=
  ((l.dropWhile Char.isWhitespace).reverse.dropWhile Char.isWhitespace).reverse

/-- Python's `str.strip()`. -/
def pyStrip (s : String) : String :=
  String.mk (stripList s.toList)

/-- Python's `len` on a string: number of characters. -/
def pyLen (s : String) : Nat :=
  s.toList.length

/-- analyzer.py line 148: the warranty-keyword set. -/
def warranty_keywords : List String :=
  ["warrant", "guarantee", "assure", "promise", "liability", "disclaim", "as-is"]

/-- analyzer.py line 149: `any(keyword in clause.lower() for keyword in warranty_keywords)`. -/
def hasWarrantyTerms (clause : String) : Bool :=
  warranty_keywords.any (fun kw => substrIn kw (pyLower clause))

/-- Outcome of one call to the external completion service, as the code
distinguishes them: success, `AuthenticationError`, `RateLimitError`,
`APIError`, or any other exception (with its `str(e)`). -/
inductive LlmOutcome where
  | ok (content : String)
  | authError
  | rateLimitError
  | apiError (msg : String)
  | otherError (msg : String)
deriving DecidableEq

/-- analyzer.py line 38: prompt template of `analyze_clause_with_openai`. -/
def clausePrompt (clause : String) : String :=
  "Please explain the meaning of this legal clause in simple language:\n\n" ++ clause

/-- analyzer.py line 56: message returned on `AuthenticationError`. -/
def authMsg : String := "Error: Invalid OpenAI API key. Please check your .env file."

/-- analyzer.py line 60: message returned on `RateLimitError`. -/
def rateMsg : String :=
  "Error: OpenAI rate limit exceeded. Please try again later or check your account balance."

/-- analyzer.py line 64: message returned on `APIError`. -/
def apiMsg (m : String) : String := "Error: OpenAI API error - " ++ m

/-- analyzer.py `analyze_clause_with_openai`: raises (`.error`) when no API key is
configured; otherwise calls the service and converts every failure class into a
returned (`.ok`) error string. -/
def analyze_clause_with_openai (apiKeyConfigured : Bool) (llm : String → LlmOutcome)
    (clause : String) : Except String String :=
  if !apiKeyConfigured then
    .error "OpenAI API key not configured. Please check your .env file."
  else
    match llm (clausePrompt clause) with
    | .ok content => .ok (pyStrip content)
    | .authError => .ok authMsg
    | .rateLimitError => .ok rateMsg
    | .apiError m => .ok (apiMsg m)
    | .otherError m => .ok ("Error analyzing clause: " ++ m)

/-- analyzer.py lines 77-90: prompt template of `analyze_clause_for_grantie`. -/
def grantiePrompt (clause : String) : String :=
  "\n    Analyze this legal clause specifically for warranties, guarantees, and related terms:\n    \n    "
    ++ clause ++
    "\n    \n    Please identify:\n    1. Any warranties mentioned (express or implied)\n    2. Any guarantees provided\n    3. Limitations or disclaimers\n    4. Risk level for the recipient (Low/Medium/High)\n    5. Key terms to watch out for\n    \n    Provide a clear, simple explanation suitable for non-lawyers.\n    "

/-- analyzer.py `analyze_clause_for_grantie`: never raises — a missing API key and
every service failure are all returned as error strings. `APIError` has no
dedicated handler here and falls into the generic `except Exception` branch. -/
def analyze_clause_for_grantie (apiKeyConfigured : Bool) (llm : String → LlmOutcome)
    (clause : String) : String :=
  if !apiKeyConfigured then "Error: OpenAI API key not configured."
  else
    match llm (grantiePrompt clause) with
    | .ok content => pyStrip content
    | .authError => "Error: Invalid OpenAI API key for Grantie analysis."
    | .rateLimitError => "Error: OpenAI rate limit exceeded for Grantie analysis."
    | .apiError m => "Error analyzing clause for Grantie: " ++ m
    | .otherError m => "Error analyzing clause for Grantie: " ++ m

/-- One per-clause result dict of `analyze_uploaded_file`; the optional
`grantie_analysis` key is an `Option`. -/
structure ClauseRecord where
  clause : String
  analysis : String
  has_warranty_terms : Bool
  grantie_analysis : Option String
deriving DecidableEq

/-- analyzer.py lines 184-188: the single error record returned when the
pipeline aborts. -/
def errorRecord (msg : String) : ClauseRecord :=
  ⟨"Error processing document", "Failed to analyze document: " ++ msg, false, none⟩

/-- analyzer.py lines 137-162: the per-clause loop. Skips clauses whose trimmed
length is below 10, otherwise runs the standard analysis (which can raise when
the API key is missing — propagated as `.error`), computes the warranty flag,
and conditionally attaches the Grantie analysis. -/
def processClauses (apiKeyConfigured : Bool) (llm : String → LlmOutcome) :
    List String → Except String (List ClauseRecord)
  | [] => .ok []
  | clause :: rest =>
    if pyLen (pyStrip clause) < 10 then processClauses apiKeyConfigured llm rest
    else
      match analyze_clause_with_openai apiKeyConfigured llm clause with
      | .error e => .error e
      | .ok analysis =>
        match processClauses apiKeyConfigured llm rest with
        | .error e => .error e
        | .ok rs =>
          .ok ({ clause := clause
                 analysis := analysis
                 has_warranty_terms := hasWarrantyTerms clause
                 grantie_analysis :=
                   if hasWarrantyTerms clause then
                     some (analyze_clause_for_grantie apiKeyConfigured llm clause)
                   else none } :: rs)

/-- analyzer.py `analyze_uploaded_file`: extraction failure or an empty
extraction result abort with a single error record; otherwise the per-clause
loop runs, and any exception it raises is also converted to the single error
record. -/
def analyze_uploaded_file (apiKeyConfigured : Bool) (llm : String → LlmOutcome)
    (extraction : Except String (List String)) : List ClauseRecord :=
  match extraction with
  | .error e => [errorRecord e]
  | .ok clauses =>
    if clauses.isEmpty then
      [errorRecord "No readable content found in the document"]
    else
      match processClauses apiKeyConfigured llm clauses with
      | .ok results => results
      | .error e => [errorRecord e]

/-! ### backend/logic/grantie.py -/

/-- grantie.py line 43: keyword set for `has_warranties`. -/
def docWarrantyKws : List String := ["warrant", "warranty", "guaranteed"]

/-- grantie.py line 44: keyword set for `has_guarantees`. -/
def docGuaranteeKws : List String := ["guarantee", "assure", "promise"]

/-- grantie.py line 47: `high_risk_keywords`. -/
def high_risk_keywords : List String :=
  ["disclaim", "as-is", "no warranty", "liability", "limitation"]

/-- grantie.py line 48: `medium_risk_keywords`. -/
def medium_risk_keywords : List String :=
  ["limited warranty", "conditional", "subject to"]

/-- grantie.py lines 50-54: `risk_level = "Low"`, overridden to `"High"` when any
high-risk keyword occurs in `text.lower()`, else to `"Medium"` when any
medium-risk keyword occurs. -/
def riskLevel (text : String) : String :=
  if high_risk_keywords.any (fun kw => substrIn kw (pyLower text)) then "High"
  else if medium_risk_keywords.any (fun kw => substrIn kw (pyLower text)) then "Medium"
  else "Low"

/-- The `summary` subobject of `analyze_warranties_and_guarantees`. -/
structure RiskSummary where
  has_warranties : Bool
  has_guarantees : Bool
  risk_level : String
deriving DecidableEq

/-- The dict returned by `analyze_warranties_and_guarantees`. -/
structure GrantieResult where
  analysis : String
  summary : RiskSummary
deriving DecidableEq

/-- grantie.py lines 15-28: prompt template of `analyze_warranties_and_guarantees`. -/
def grantieDocPrompt (text : String) : String :=
  "\n    Analyze the following legal document text for warranties, guarantees, and related terms:\n\n    "
    ++ text ++
    "\n\n    Please provide:\n    1. Summary of all warranties found\n    2. Summary of all guarantees found\n    3. Any disclaimers or limitations\n    4. Overall risk assessment (High/Medium/Low)\n    5. Key recommendations for the document recipient\n\n    Format your response as a detailed analysis.\n    "

/-- grantie.py `analyze_warranties_and_guarantees`: on service success the
structured summary is computed from `text` alone; on any exception the result
is the fixed error dict with risk level `"Unknown"`. The service is modelled as
`llm : prompt → Except str(e) content`. -/
def analyze_warranties_and_guarantees (llm : String → Except String String)
    (text : String) : GrantieResult :=
  match llm (grantieDocPrompt text) with
  | .ok content =>
    { analysis := pyStrip content
      summary :=
        { has_warranties := docWarrantyKws.any (fun kw => substrIn kw (pyLower text))
          has_guarantees := docGuaranteeKws.any (fun kw => substrIn kw (pyLower text))
          risk_level := riskLevel text } }
  | .error e =>
    { analysis := "Error analyzing warranties and guarantees: " ++ e
      summary := { has_warranties := false, has_guarantees := false, risk_level := "Unknown" } }

/-- Input shape of `check_warranty_compliance`: only the `clause` text and the
`has_warranty_terms` flag of each dict are read. -/
structure CClause where
  clause : String
  has_warranty_terms : Bool
deriving DecidableEq

/-- The dict returned by `check_warranty_compliance`. -/
structure ComplianceReport where
  compliance_issues : List String
  recommendations : List String
  total_issues : Nat
deriving DecidableEq

/-- grantie.py line 96: vague-language terms. -/
def vague_terms : List String := ["reasonable", "satisfactory", "appropriate"]

/-- grantie.py line 104: time words for the time-limit check. -/
def time_words : List String := ["days", "months", "years", "period"]

/-- grantie.py line 97: vague-terms issue string. -/
def vagueIssue : String := "Vague warranty terms found - consider more specific language"

/-- grantie.py line 101: disclaimer-without-notice issue string. -/
def noticeIssue : String := "Warranty disclaimer may lack proper notice requirements"

/-- grantie.py line 105: time-limit recommendation string. -/
def timeRec : String := "Consider adding specific time limits for warranty coverage"

/-- grantie.py line 109: document-level consistency recommendation string. -/
def consistencyRec : String := "Multiple warranty clauses found - ensure consistency across all terms"

/-- grantie.py line 87: sole recommendation when no clause is flagged. -/
def emptyInputRec : String := "Consider adding clear warranty terms for transparency"

/-- grantie.py lines 92-101: the issues one flagged clause contributes, in
loop order (vague-terms check, then disclaimer-notice check). -/
def issuesFor (c : CClause) : List String :=
  let ct := pyLower c.clause
  (if vague_terms.any (fun t => substrIn t ct) then [vagueIssue] else []) ++
  (if substrIn "disclaim" ct && !substrIn "notice" ct then [noticeIssue] else [])

/-- grantie.py lines 104-105: the recommendation one flagged clause contributes. -/
def recFor (c : CClause) : Option String :=
  let ct := pyLower c.clause
  if substrIn "warranty" ct && !(time_words.any (fun t => substrIn t ct)) then
    some timeRec
  else none

/-- grantie.py `check_warranty_compliance`: filters the flagged clauses, returns
the fixed empty-input report when none, otherwise accumulates per-clause issues
and recommendations in clause order and appends the consistency recommendation
when more than 3 clauses are flagged. -/
def check_warranty_compliance (clauses : List CClause) : ComplianceReport :=
  let warranty_clauses := clauses.filter (fun c => c.has_warranty_terms)
  if warranty_clauses.isEmpty then
    { compliance_issues := [], recommendations := [emptyInputRec], total_issues := 0 }
  else
    let compliance_issues := (warranty_clauses.map issuesFor).flatten
    let recs := warranty_clauses.filterMap recFor
    let recommendations :=
      if warranty_clauses.length > 3 then recs ++ [consistencyRec] else recs
    { compliance_issues := compliance_issues
      recommendations := recommendations
      total_issues := compliance_issues.length }

/-! ### /speak/ endpoint (main.py, backend/logic/tts.py, frontend/app.py) -/

/-- The request `text_to_speech` posts to the speech service: voice id in the
URL, text in the JSON payload. -/
structure TtsRequest where
  voice : String
  text : String
deriving DecidableEq

/-- tts.py line 13: the default voice id. -/
def DEFAULT_VOICE_ID : String := "Rachel"

/-- tts.py lines 22-38: `text_to_speech` builds the request with the text
exactly as given. -/
def text_to_speech_request (text : String) : TtsRequest :=
  { voice := DEFAULT_VOICE_ID, text := text }

/-- main.py lines 92-112: the `/speak/` endpoint passes the payload text to
`text_to_speech` unchanged, so this is the request sent to the speech service
for a given payload text. -/
def speak_endpoint_request (payload_text : String) : TtsRequest :=
  text_to_speech_request payload_text

/-- Python's `text[:n]` character slice. -/
def pySlice (text : String) (n : Nat) : String :=
  String.mk (text.toList.take n)

/-- frontend/app.py line 51: `play_audio` posts `text[:500]` to `/speak/`. -/
def play_audio_posted_text (text : String) : String :=
  pySlice text 500

/-! ### Helper definitions and lemmas for the theorems -/

/-- The string `analyze_clause_with_openai` returns when the API key is
configured: the stripped service content, or the class-specific error string. -/
def analysisOf (llm : String → LlmOutcome) (clause : String) : String :=
  match llm (clausePrompt clause) with
  | .ok content => pyStrip content
  | .authError => authMsg
  | .rateLimitError => rateMsg
  | .apiError m => apiMsg m
  | .otherError m => "Error analyzing clause: " ++ m

/-- The record the per-clause loop builds for one surviving clause when the
API key is configured. -/
def mkRecord (llm : String → LlmOutcome) (clause : String) : ClauseRecord :=
  { clause := clause
    analysis := analysisOf llm clause
    has_warranty_terms := hasWarrantyTerms clause
    grantie_analysis :=
      if hasWarrantyTerms clause then some (analyze_clause_for_grantie true llm clause)
      else none }

/-- The clauses surviving the 10-character minimum-length filter of
analyzer.py line 141, in document order. -/
def survivors (clauses : List String) : List String :=
  clauses.filter (fun c => !decide (pyLen (pyStrip c) < 10))

lemma analyze_clause_with_openai_ok (llm : String → LlmOutcome) (clause : String) :
    analyze_clause_with_openai true llm clause = .ok (analysisOf llm clause) := by
  unfold analyze_clause_with_openai analysisOf
  cases llm (clausePrompt clause) <;> rfl

lemma processClauses_true_eq (llm : String → LlmOutcome) (clauses : List String) :
    processClauses true llm clauses = .ok ((survivors clauses).map (mkRecord llm)) := by
  induction clauses with
  | nil => rfl
  | cons c rest ih =>
    by_cases h : pyLen (pyStrip c) < 10
    · rw [processClauses, if_pos h, ih]
      simp [survivors, h]
    · rw [processClauses, if_neg h, analyze_clause_with_openai_ok, ih]
      simp [survivors, h, mkRecord]

lemma processClauses_ok_invariant (ak : Bool) (llm : String → LlmOutcome) :
    ∀ (cs : List String) (rs : List ClauseRecord),
      processClauses ak llm cs = .ok rs →
      ∀ r ∈ rs, r.grantie_analysis.isSome = r.has_warranty_terms := by
  intro cs
  induction cs with
  | nil =>
    intro rs h r hr
    rw [processClauses] at h
    injection h with h
    subst h
    cases hr
  | cons c rest ih =>
    intro rs h r hr
    by_cases hlen : pyLen (pyStrip c) < 10
    · rw [processClauses, if_pos hlen] at h
      exact ih rs h r hr
    · rw [processClauses, if_neg hlen] at h
      cases ha : analyze_clause_with_openai ak llm c with
      | error e => rw [ha] at h; cases h
      | ok analysis =>
        rw [ha] at h
        cases hrest : processClauses ak llm rest with
        | error e => rw [hrest] at h; cases h
        | ok rs2 =>
          rw [hrest] at h
          injection h with h
          subst h
          rcases List.mem_cons.mp hr with hr | hr
          · subst hr
            by_cases hw : hasWarrantyTerms c <;> simp [hw]
          · exact ih rs2 hrest r hr

lemma processClauses_all_short (ak : Bool) (llm : String → LlmOutcome)
    (cs : List String) (h : ∀ c ∈ cs, pyLen (pyStrip c) < 10) :
    processClauses ak llm cs = .ok [] := by
  induction cs with
  | nil => rfl
  | cons c rest ih =>
    rw [processClauses, if_pos (h c (by simp))]
    exact ih fun x hx => h x (by simp [hx])

lemma analyze_uploaded_file_true_eq (llm : String → LlmOutcome) (clauses : List String)
    (hne : clauses ≠ []) :
    analyze_uploaded_file true llm (.ok clauses) = (survivors clauses).map (mkRecord llm) := by
  simp only [analyze_uploaded_file]
  rw [if_neg (by simpa [List.isEmpty_iff] using hne), processClauses_true_eq]

lemma map_clause_mkRecord (llm : String → LlmOutcome) (l : List String) :
    (l.map (mkRecord llm)).map ClauseRecord.clause = l := by
  induction l with
  | nil => rfl
  | cons c t ih => simp only [List.map_cons, ih, mkRecord]

/-! ### Claim theorems -/

/-- C1: for every record in every result list returned by
`analyze_uploaded_file`, the `grantie_analysis` field is present if and only if
the record's `has_warranty_terms` field is true. -/
theorem grantie_presence_iff_flag (ak : Bool) (llm : String → LlmOutcome)
    (ext : Except String (List String)) :
    ∀ r ∈ analyze_uploaded_file ak llm ext,
      r.grantie_analysis.isSome = r.has_warranty_terms := by
  intro r hr
  cases ext with
  | error e =>
    simp only [analyze_uploaded_file] at hr
    rw [List.mem_singleton] at hr
    subst hr
    rfl
  | ok clauses =>
    simp only [analyze_uploaded_file] at hr
    by_cases hemp : clauses.isEmpty
    · rw [if_pos hemp] at hr
      rw [List.mem_singleton] at hr
      subst hr
      rfl
    · rw [if_neg hemp] at hr
      cases hp : processClauses ak llm clauses with
      | ok results =>
        rw [hp] at hr
        exact processClauses_ok_invariant ak llm clauses results hp r hr
      | error e =>
        rw [hp] at hr
        rw [List.mem_singleton] at hr
        subst hr
        rfl

/-- Witness for C1 at a concrete aborted run. -/
theorem grantie_presence_iff_flag_witness :
    (errorRecord "boom").grantie_analysis.isSome = (errorRecord "boom").has_warranty_terms :=
  grantie_presence_iff_flag true (fun _ => .ok "x") (.error "boom")
    (errorRecord "boom") (by decide)

/-- A completion-service oracle that always succeeds. -/
def constOk : String → LlmOutcome := fun _ => .ok "ok"

/-- C2 counterexample: a document whose extraction yields one non-empty clause
of fewer than 10 characters. Zero clauses survive the minimum-length filter,
yet `analyze_uploaded_file` silently returns the empty list instead of an
error result. -/
theorem filtered_out_returns_empty_list :
    analyze_uploaded_file true constOk (.ok ["short"]) = [] ∧
    "short" ≠ "" ∧ pyLen (pyStrip "short") < 10 := by
  refine ⟨by decide, by decide, by decide⟩

/-- C2 amended: only a document whose extraction yields zero clauses aborts
with the error record; when extracted clauses exist but all fall below the
10-character filter, the pipeline returns an empty list. -/
theorem empty_doc_aborts_but_filtered_doc_returns_empty (ak : Bool)
    (llm : String → LlmOutcome) (clauses : List String)
    (hne : clauses ≠ []) (hall : ∀ c ∈ clauses, pyLen (pyStrip c) < 10) :
    analyze_uploaded_file ak llm (.ok [])
        = [errorRecord "No readable content found in the document"] ∧
    analyze_uploaded_file ak llm (.ok clauses) = [] := by
  constructor
  · rfl
  · simp only [analyze_uploaded_file]
    rw [if_neg (by simpa [List.isEmpty_iff] using hne), processClauses_all_short ak llm clauses hall]

/-- Witness for the amended C2. -/
theorem empty_doc_aborts_but_filtered_doc_returns_empty_witness :
    analyze_uploaded_file true constOk (.ok [])
        = [errorRecord "No readable content found in the document"] ∧
    analyze_uploaded_file true constOk (.ok ["short"]) = [] :=
  empty_doc_aborts_but_filtered_doc_returns_empty true constOk ["short"]
    (by decide) (by decide)

/-- C3: when at least one clause survives the length filter, the result list
has exactly one record per surviving clause, and the records keep document
order. -/
theorem clause_records_match_survivors (llm : String → LlmOutcome)
    (clauses : List String) (h : survivors clauses ≠ []) :
    analyze_uploaded_file true llm (.ok clauses) = (survivors clauses).map (mkRecord llm) ∧
    (analyze_uploaded_file true llm (.ok clauses)).map ClauseRecord.clause = survivors clauses ∧
    (analyze_uploaded_file true llm (.ok clauses)).length = (survivors clauses).length := by
  have hne : clauses ≠ [] := by
    intro hc
    exact h (by simp [hc, survivors])
  have heq := analyze_uploaded_file_true_eq llm clauses hne
  refine ⟨heq, ?_, ?_⟩
  · rw [heq, map_clause_mkRecord]
  · rw [heq, List.length_map]

/-- Witness for C3. -/
theorem clause_records_match_survivors_witness :
    analyze_uploaded_file true constOk (.ok ["This clause is long enough to survive."])
        = (survivors ["This clause is long enough to survive."]).map (mkRecord constOk) ∧
    (analyze_uploaded_file true constOk (.ok ["This clause is long enough to survive."])).map
        ClauseRecord.clause = survivors ["This clause is long enough to survive."] ∧
    (analyze_uploaded_file true constOk (.ok ["This clause is long enough to survive."])).length
        = (survivors ["This clause is long enough to survive."]).length :=
  clause_records_match_survivors constOk ["This clause is long enough to survive."] (by decide)

lemma string_ne_append_of_take_ne (p s m : String)
    (h : s.toList.take p.toList.length ≠ p.toList) : s ≠ p ++ m := by
  intro he
  apply h
  rw [he]
  show ((p ++ m).toList).take p.toList.length = p.toList
  rw [show (p ++ m).toList = p.toList ++ m.toList from by cases p; cases m; rfl]
  exact List.take_left p.toList m.toList

lemma survivors_mem {clauses : List String} {c : String}
    (hc : c ∈ clauses) (hlen : ¬ pyLen (pyStrip c) < 10) : c ∈ survivors clauses := by
  rw [survivors, List.mem_filter]
  exact ⟨hc, by simpa using hlen⟩

/-- C4: with the API key configured, the per-clause analysis call never raises
on a service failure — it returns a class-specific error string, the three
failure classes produce pairwise distinct strings, and an authentication
failure on one clause leaves the batch intact: that clause's record carries the
authentication message while the result still has one record per surviving
clause, in document order. -/
theorem clause_analysis_absorbs_service_failures (llm : String → LlmOutcome)
    (clauses : List String) (c text m : String)
    (hc : c ∈ clauses) (hlen : ¬ pyLen (pyStrip c) < 10)
    (hauth : llm (clausePrompt c) = .authError) :
    analyze_clause_with_openai true llm text = .ok (analysisOf llm text) ∧
    (llm (clausePrompt text) = .authError → analysisOf llm text = authMsg) ∧
    (llm (clausePrompt text) = .rateLimitError → analysisOf llm text = rateMsg) ∧
    (llm (clausePrompt text) = .apiError m → analysisOf llm text = apiMsg m) ∧
    authMsg ≠ rateMsg ∧ authMsg ≠ apiMsg m ∧ rateMsg ≠ apiMsg m ∧
    mkRecord llm c ∈ analyze_uploaded_file true llm (.ok clauses) ∧
    (mkRecord llm c).analysis = authMsg ∧
    (analyze_uploaded_file true llm (.ok clauses)).map ClauseRecord.clause
      = survivors clauses := by
  have hne : clauses ≠ [] := by
    intro hnil
    rw [hnil] at hc
    cases hc
  have heq := analyze_uploaded_file_true_eq llm clauses hne
  refine ⟨analyze_clause_with_openai_ok llm text, ?_, ?_, ?_, by decide, ?_, ?_, ?_, ?_, ?_⟩
  · intro h; rw [analysisOf, h]
  · intro h; rw [analysisOf, h]
  · intro h; rw [analysisOf, h]
  · show authMsg ≠ "Error: OpenAI API error - " ++ m
    exact string_ne_append_of_take_ne _ _ _ (by decide)
  · show rateMsg ≠ "Error: OpenAI API error - " ++ m
    exact string_ne_append_of_take_ne _ _ _ (by decide)
  · rw [heq]
    exact List.mem_map_of_mem (mkRecord llm) (survivors_mem hc hlen)
  · show analysisOf llm c = authMsg
    rw [analysisOf, hauth]
  · rw [heq, map_clause_mkRecord]

/-- A completion-service oracle failing authentication exactly on the prompt
for the given clause. -/
def llmAuthOn (bad : String) : String → LlmOutcome :=
  fun p => if p = clausePrompt bad then .authError else .ok "fine"

/-- A clause with no warranty keyword. -/
def goodC : String := "Either party may terminate this agreement with notice."

/-- A clause with warranty keywords. -/
def badC : String := "Seller disclaims all warranties; goods sold as-is."

/-- Witness for C4: the auth-failing clause's record carries the
authentication message and the two-clause batch is complete. -/
theorem clause_analysis_absorbs_service_failures_witness :
    mkRecord (llmAuthOn badC) badC ∈
      analyze_uploaded_file true (llmAuthOn badC) (.ok [goodC, badC]) ∧
    (mkRecord (llmAuthOn badC) badC).analysis = authMsg ∧
    (analyze_uploaded_file true (llmAuthOn badC) (.ok [goodC, badC])).map
      ClauseRecord.clause = survivors [goodC, badC] := by
  have h := clause_analysis_absorbs_service_failures (llmAuthOn badC) [goodC, badC]
    badC goodC "x" (by decide) (by decide) (by decide)
  obtain ⟨-, -, -, -, -, -, -, h8, h9, h10⟩ := h
  exact ⟨h8, h9, h10⟩

/-- C5: the warranty flag is a pure function of the clause text — true exactly
when one of the seven keywords occurs case-insensitively in the text — and the
example clause from the spec classifies as true. -/
theorem warranty_flag_keyword_spec (clause : String) :
    (hasWarrantyTerms clause = true ↔
      ∃ kw ∈ warranty_keywords, substrIn kw (pyLower clause) = true) ∧
    hasWarrantyTerms "Seller disclaims all warranties; goods sold as-is." = true := by
  constructor
  · rw [hasWarrantyTerms, List.any_eq_true]
  · decide

/-- C6: the risk-tier function checks the High-risk keyword set first and
short-circuits, then the Medium set, else Low; in particular a text containing
keywords from both sets classifies High. -/
theorem risk_level_precedence (text : String) :
    (high_risk_keywords.any (fun kw => substrIn kw (pyLower text)) = true →
      riskLevel text = "High") ∧
    (high_risk_keywords.any (fun kw => substrIn kw (pyLower text)) = false →
      medium_risk_keywords.any (fun kw => substrIn kw (pyLower text)) = true →
      riskLevel text = "Medium") ∧
    (high_risk_keywords.any (fun kw => substrIn kw (pyLower text)) = false →
      medium_risk_keywords.any (fun kw => substrIn kw (pyLower text)) = false →
      riskLevel text = "Low") ∧
    (high_risk_keywords.any (fun kw => substrIn kw (pyLower text)) = true →
      medium_risk_keywords.any (fun kw => substrIn kw (pyLower text)) = true →
      riskLevel text = "High") := by
  refine ⟨?_, ?_, ?_, ?_⟩
  · intro h1
    rw [riskLevel, if_pos h1]
  · intro h1 h2
    rw [riskLevel, if_neg (by simp [h1]), if_pos h2]
  · intro h1 h2
    rw [riskLevel, if_neg (by simp [h1]), if_neg (by simp [h2])]
  · intro h1 _
    rw [riskLevel, if_pos h1]

/-- Witness for C6: a text holding a High-risk and a Medium-risk keyword is
classified High. -/
theorem risk_level_precedence_witness :
    riskLevel "Liability is limited, subject to the conditions below." = "High" :=
  (risk_level_precedence "Liability is limited, subject to the conditions below.").2.2.2
    (by decide) (by decide)

/-- C7: with no warranty-flagged clause in the input, the compliance report
has an empty issue list, zero total issues, and exactly the one generic
recommendation. -/
theorem compliance_no_flagged_clauses (clauses : List CClause)
    (h : ∀ c ∈ clauses, c.has_warranty_terms = false) :
    check_warranty_compliance clauses =
      { compliance_issues := [], recommendations := [emptyInputRec], total_issues := 0 } := by
  have hfil : clauses.filter (fun c => c.has_warranty_terms) = [] := by
    rw [List.filter_eq_nil_iff]
    intro c hc
    simp [h c hc]
  rw [check_warranty_compliance]
  simp [hfil]

/-- Witness for C7. -/
theorem compliance_no_flagged_clauses_witness :
    check_warranty_compliance [⟨"a perfectly ordinary clause", false⟩] =
      { compliance_issues := [], recommendations := [emptyInputRec], total_issues := 0 } :=
  compliance_no_flagged_clauses [⟨"a perfectly ordinary clause", false⟩] (by decide)

lemma mem_filterMap_recFor {s : String} {l : List CClause}
    (h : s ∈ l.filterMap recFor) : s = timeRec := by
  rcases List.mem_filterMap.mp h with ⟨c, -, hc⟩
  rw [recFor] at hc
  split at hc
  · injection hc with hc
    exact hc.symm
  · cases hc

lemma count_consistencyRec_filterMap (l : List CClause) :
    (l.filterMap recFor).count consistencyRec = 0 := by
  rw [List.count_eq_zero]
  intro hmem
  have := mem_filterMap_recFor hmem
  rw [this] at hmem
  exact absurd this.symm (by decide)

/-- C8: the document-level consistency recommendation appears exactly once and
after every per-clause recommendation when more than 3 clauses are flagged,
and not at all when 3 or fewer are flagged. -/
theorem consistency_rec_iff_more_than_three (clauses : List CClause) :
    ((clauses.filter (fun c => c.has_warranty_terms)).length > 3 →
      (check_warranty_compliance clauses).recommendations
        = (clauses.filter (fun c => c.has_warranty_terms)).filterMap recFor
            ++ [consistencyRec] ∧
      ((check_warranty_compliance clauses).recommendations).count consistencyRec = 1) ∧
    ((clauses.filter (fun c => c.has_warranty_terms)).length ≤ 3 →
      ((check_warranty_compliance clauses).recommendations).count consistencyRec = 0) := by
  constructor
  · intro hgt
    have hne : ¬ (clauses.filter (fun c => c.has_warranty_terms)).isEmpty := by
      rw [List.isEmpty_iff]
      intro hnil
      rw [hnil] at hgt
      exact absurd hgt (by decide)
    have hrec : (check_warranty_compliance clauses).recommendations
        = (clauses.filter (fun c => c.has_warranty_terms)).filterMap recFor
            ++ [consistencyRec] := by
      rw [check_warranty_compliance]
      simp only [if_neg hne, if_pos hgt]
    refine ⟨hrec, ?_⟩
    rw [hrec, List.count_append, count_consistencyRec_filterMap]
    decide
  · intro hle
    by_cases hemp : (clauses.filter (fun c => c.has_warranty_terms)).isEmpty
    · rw [check_warranty_compliance]
      simp only [if_pos hemp]
      decide
    · have hng : ¬ (clauses.filter (fun c => c.has_warranty_terms)).length > 3 := by
        omega
      rw [check_warranty_compliance]
      simp only [if_neg hemp, if_neg hng]
      exact count_consistencyRec_filterMap _

/-- Four warranty-flagged clauses. -/
def fourFlagged : List CClause :=
  [⟨"warranty clause one", true⟩, ⟨"warranty clause two", true⟩,
   ⟨"warranty clause three", true⟩, ⟨"warranty clause four", true⟩]

/-- Witness for C8: with four flagged clauses the consistency recommendation
is present exactly once, after the per-clause recommendations. -/
theorem consistency_rec_iff_more_than_three_witness :
    (check_warranty_compliance fourFlagged).recommendations
      = (fourFlagged.filter (fun c => c.has_warranty_terms)).filterMap recFor
          ++ [consistencyRec] ∧
    ((check_warranty_compliance fourFlagged).recommendations).count consistencyRec = 1 :=
  (consistency_rec_iff_more_than_three fourFlagged).1 (by decide)

/-- The 501-character payload used to exercise the speak endpoint. -/
def longText : String := String.mk (List.replicate 501 'a')

/-- C9 counterexample: a 501-character payload reaches the speech service
untruncated — the endpoint performs no truncation. -/
theorem speak_sends_full_text_over_500 :
    500 < pyLen (speak_endpoint_request longText).text := by
  have h : pyLen (speak_endpoint_request longText).text = 501 := by
    show (String.mk (List.replicate 501 'a')).toList.length = 501
    rw [show (String.mk (List.replicate 501 'a')).toList = List.replicate 501 'a' from rfl,
      List.length_replicate]
  omega

/-- C9 amended: the `/speak/` endpoint forwards the payload text to the speech
service unchanged; the 500-character truncation is performed by the frontend
client before it posts to the endpoint, so text flowing through the frontend
path is bounded by 500 characters. -/
theorem speak_truncation_lives_in_frontend (t : String) :
    (speak_endpoint_request t).text = t ∧
    pyLen (play_audio_posted_text t) ≤ 500 ∧
    pyLen (speak_endpoint_request (play_audio_posted_text t)).text ≤ 500 := by
  have hb : pyLen (play_audio_posted_text t) ≤ 500 := by
    show (String.mk (t.toList.take 500)).toList.length ≤ 500
    rw [show (String.mk (t.toList.take 500)).toList = t.toList.take 500 from rfl,
      List.length_take]
    omega
  exact ⟨rfl, hb, hb⟩

/-- C10: on the success path of `analyze_warranties_and_guarantees`, the
structured summary depends on the input text alone — two runs over the same
text with any two successful service responses produce identical summaries —
while the response content flows only into the free-text analysis field. -/
theorem grantie_summary_independent_of_service
    (llmA llmB : String → Except String String) (text rA rB : String)
    (hA : llmA (grantieDocPrompt text) = .ok rA)
    (hB : llmB (grantieDocPrompt text) = .ok rB) :
    (analyze_warranties_and_guarantees llmA text).summary
      = (analyze_warranties_and_guarantees llmB text).summary ∧
    (analyze_warranties_and_guarantees llmA text).analysis = pyStrip rA ∧
    (analyze_warranties_and_guarantees llmA text).summary =
      { has_warranties := docWarrantyKws.any (fun kw => substrIn kw (pyLower text))
        has_guarantees := docGuaranteeKws.any (fun kw => substrIn kw (pyLower text))
        risk_level := riskLevel text } := by
  rw [analyze_warranties_and_guarantees, analyze_warranties_and_guarantees, hA, hB]
  exact ⟨rfl, rfl, rfl⟩

/-- Witness for C10 at two distinct concrete service responses. -/
theorem grantie_summary_independent_of_service_witness :
    (analyze_warranties_and_guarantees (fun _ => .ok "response one") badC).summary
      = (analyze_warranties_and_guarantees (fun _ => .ok "response two") badC).summary ∧
    (analyze_warranties_and_guarantees (fun _ => .ok "response one") badC).analysis
      = pyStrip "response one" ∧
    (analyze_warranties_and_guarantees (fun _ => .ok "response one") badC).summary =
      { has_warranties := docWarrantyKws.any (fun kw => substrIn kw (pyLower badC))
        has_guarantees := docGuaranteeKws.any (fun kw => substrIn kw (pyLower badC))
        risk_level := riskLevel badC } :=
  grantie_summary_independent_of_service (fun _ => .ok "response one")
    (fun _ => .ok "response two") badC "response one" "response two" rfl rfl

end LegalApp
